import Mathlib

/-!
Shallow embedding of the fan-control daemon `smfc.py` / `sensor.py`
(the Supermicro H11 fork of smfc).  Python floats are modelled as exact
rationals plus a NaN marker (`PFloat`); every claim below is evaluated on
inputs on which IEEE double arithmetic is exact (small dyadic rationals
and integers), so the rational model agrees with the Python runtime
there.  Fallible Python operations (float division by zero, `round` of
NaN, `hex` of a float, lookup of a missing attribute) are modelled with
`Except PyErr`.
-/

namespace Smfc

/-- Python exception kinds the modelled code can raise. -/
inductive PyErr where
  | typeError
  | valueError
  | zeroDivisionError
  | attributeError
deriving DecidableEq, Repr

/-- Python `float`: an exact rational, or NaN.  Infinities never arise in
the modelled code paths. -/
inductive PFloat where
  | nan : PFloat
  | val : ℚ → PFloat
deriving DecidableEq, Repr

/-- Python `math.isnan`. -/
def isnan : PFloat → Bool
  | .nan => true
  | .val _ => false

/-- Python `<` on floats: any comparison involving NaN is false. -/
def pyLt : PFloat → PFloat → Bool
  | .val a, .val b => decide (a < b)
  | _, _ => false

/-- Python truthiness of a float: `0.0` is falsy; every other float,
NaN included, is truthy. -/
def truthy : PFloat → Bool
  | .val q => decide (q ≠ 0)
  | .nan => true

/-- Python float addition; NaN propagates. -/
def padd : PFloat → PFloat → PFloat
  | .val a, .val b => .val (a + b)
  | _, _ => .nan

/-- Python float subtraction; NaN propagates. -/
def psub : PFloat → PFloat → PFloat
  | .val a, .val b => .val (a - b)
  | _, _ => .nan

/-- Python float multiplication; NaN propagates. -/
def pmul : PFloat → PFloat → PFloat
  | .val a, .val b => .val (a * b)
  | _, _ => .nan

/-- Python float true division: raises ZeroDivisionError whenever the
divisor is `0.0`, even for a NaN dividend; otherwise NaN propagates. -/
def pdiv (x y : PFloat) : Except PyErr PFloat :=
  match y with
  | .val b =>
    if b = 0 then .error .zeroDivisionError
    else
      match x with
      | .val a => .ok (.val (a / b))
      | .nan => .ok .nan
  | .nan => .ok .nan

/-- Python `abs` on floats. -/
def pabs : PFloat → PFloat
  | .val a => .val |a|
  | .nan => .nan

/-- Python builtin `min(a, b)`: keeps `a` unless `b < a`.  NaN comparisons
are false, so the result is order dependent under NaN. -/
def pmin (a b : PFloat) : PFloat := if pyLt b a then b else a

/-- Python builtin `max(a, b)`: keeps `a` unless `b > a`. -/
def pmax (a b : PFloat) : PFloat := if pyLt a b then b else a

/-- Round half to even on rationals, the rounding Python `round` uses. -/
def roundHalfEven (q : ℚ) : ℤ :=
  let f := ⌊q⌋
  let r := q - (f : ℚ)
  if r < 1/2 then f
  else if 1/2 < r then f + 1
  else if f % 2 = 0 then f else f + 1

/-- Python `round(x)` on a float: ValueError on NaN (cannot convert float
NaN to integer), round half to even otherwise. -/
def roundE : PFloat → Except PyErr ℤ
  | .nan => .error .valueError
  | .val q => .ok (roundHalfEven q)

/-- A Python value that is either an int or a float.  `hex` accepts only
ints; in `Ipmi.set_fan_level` the expression `(255 * level) / 100.0` is a
float because `/` is true division, so `hex` raises TypeError on it. -/
inductive PyVal where
  | pint : ℤ → PyVal
  | pfloat : ℚ → PyVal
deriving DecidableEq, Repr

/-- Python `hex` on an int. -/
def pyHexInt (n : ℤ) : String :=
  if n < 0 then "-0x" ++ (Nat.toDigits 16 n.natAbs).asString
  else "0x" ++ (Nat.toDigits 16 n.toNat).asString

/-- Python builtin `hex`: formats an int, raises TypeError on a float
(floats do not implement the index protocol, whatever their value). -/
def pyHex : PyVal → Except PyErr String
  | .pint n => .ok (pyHexInt n)
  | .pfloat _ => .error .typeError

/-- Python `str.strip()` with no argument: remove whitespace from both
ends, written over the character list of the string. -/
def pyStrip (s : String) : String :=
  ⟨((s.data.dropWhile fun c => c.isWhitespace).reverse.dropWhile
      fun c => c.isWhitespace).reverse⟩

/-- Digit run to a natural number; fails on a non-digit. -/
def readDigits (cs : List Char) : Option ℕ :=
  cs.foldlM (fun acc c => if c.isDigit then some (acc * 10 + (c.toNat - 48)) else none) 0

/-- Plain decimal subset of Python `float(str)`: optional sign, digits
with an optional fractional part, surrounding whitespace stripped.  This
covers every numeric field the modelled parsers feed to it; strings
outside the subset (such as ipmitool's `na`) fail, exactly as Python
`float` raises there. -/
def parseDecimal (s : String) : Option ℚ :=
  let cs := (pyStrip s).data
  let signAndRest : ℤ × List Char :=
    match cs with
    | '-' :: r => (-1, r)
    | '+' :: r => (1, r)
    | r => (1, r)
  let sgn := signAndRest.1
  let body := signAndRest.2
  let intPart := body.takeWhile (fun c => c.isDigit)
  let rest := body.dropWhile (fun c => c.isDigit)
  match rest with
  | [] =>
    if intPart.isEmpty then none
    else
      match readDigits intPart with
      | some n => some ((sgn * n : ℤ) : ℚ)
      | none => none
  | '.' :: frac =>
    if intPart.isEmpty && frac.isEmpty then none
    else if frac.all (fun c => c.isDigit) then
      match readDigits intPart, readDigits frac with
      | some n, some m =>
        some ((sgn : ℚ) * ((n : ℚ) + (m : ℚ) / ((10 : ℚ) ^ frac.length)))
      | _, _ => none
    else none
  | _ => none

/-- The helper `str2float` (smfc.py lines 34-38, sensor.py lines 7-11):
Python `float(str)` with every failure mapped to NaN. -/
def str2float (s : String) : PFloat :=
  match parseDecimal s with
  | some q => .val q
  | none => .nan

/-- The `Sensor` record (smfc.py lines 340-372): one temperature reading
with its six IPMI thresholds and an optional disk kind. -/
structure Sensor where
  name : String
  temperature : PFloat
  unit : String
  status : String
  lnr : PFloat
  lcr : PFloat
  lnc : PFloat
  unc : PFloat
  ucr : PFloat
  unr : PFloat
  type : Option String := none
deriving DecidableEq, Repr

/-- The body of `Sensor.getRelTemp` (smfc.py lines 374-382) read as an
instance method over the fields of the reading:
`l = min(max(temperature, unc), lnc) - lnc`, `u = unc - lnc`,
`r = l / u`, `return max(min(r, 1.0), 0.0) if r else 1.0`.
Note the clamp arguments of the source: `unc` stands as the lower and
`lnc` as the upper bound, and the guard tests Python truthiness of `r`,
so `r == 0.0` selects the `1.0` branch while NaN does not. -/
def getRelTempBody (s : Sensor) : Except PyErr PFloat :=
  let l := psub (pmin (pmax s.temperature s.unc) s.lnc) s.lnc
  let u := psub s.unc s.lnc
  match pdiv l u with
  | .error e => .error e
  | .ok r => .ok (if truthy r then pmax (pmin r (.val 1)) (.val 0) else .val 1)

/-- `Sensor.getRelTemp` as actually invoked: the method carries the
classmethod decorator, so its `self` parameter is bound to the `Sensor`
class object, and `self.temperature` looks the field up on the class,
where only an annotation (no attribute) exists.  Every call on a reading
therefore raises AttributeError. -/
def getRelTemp (_ : Sensor) : Except PyErr PFloat := .error .attributeError

/-- Modelled from the spec: the relative temperature the spec prescribes,
`clamp((temperature - lnc) / (unc - lnc), 0, 1)`, with `1.0` whenever
`unc == lnc` or any of the three values is NaN. -/
def spec_relTemp (s : Sensor) : PFloat :=
  match s.temperature, s.lnc, s.unc with
  | .val t, .val l, .val u =>
    if u = l then .val 1 else .val (max (min ((t - l) / (u - l)) 1) 0)
  | _, _, _ => .val 1

/-- `FanController.get_1_temp` (smfc.py lines 746-760) on the updated
sensor list: the first reading's relative temperature; an exception from
the rel-temp call is caught and the initial NaN returned. -/
def get_1_temp (relOf : Sensor → Except PyErr PFloat) (sensors : List Sensor) : PFloat :=
  match sensors with
  | [] => .nan
  | s :: _ =>
    match relOf s with
    | .error _ => .nan
    | .ok v => v

/-- Loop of `FanController.get_min_temp` (smfc.py lines 774-786).  In the
else branch the source reassigns `value = v` unconditionally after the
`v < value` comparison — the comparison only selects the sensor whose
name is logged — so the accumulator always becomes the current reading's
rel.  An exception escapes to the enclosing handler, which returns the
value accumulated so far. -/
def min_loop (relOf : Sensor → Except PyErr PFloat) : List Sensor → PFloat → PFloat
  | [], value => value
  | s :: rest, value =>
    if isnan value then
      match relOf s with
      | .error _ => value
      | .ok v => min_loop relOf rest v
    else
      match relOf s with
      | .error _ => value
      | .ok v => min_loop relOf rest v

/-- `FanController.get_min_temp` (smfc.py lines 762-791). -/
def get_min_temp (relOf : Sensor → Except PyErr PFloat) (sensors : List Sensor) : PFloat :=
  if sensors.length > 0 then min_loop relOf sensors .nan else .nan

/-- Loop of `FanController.get_avg_temp` (smfc.py lines 802-809): the
first non-NaN rel seeds the accumulator without incrementing `cnt`; each
further non-NaN rel is added and counted.  An exception returns the value
accumulated so far. -/
def avg_loop (relOf : Sensor → Except PyErr PFloat) :
    List Sensor → PFloat → ℕ → (PFloat × ℕ) ⊕ PFloat
  | [], value, cnt => .inl (value, cnt)
  | s :: rest, value, cnt =>
    match relOf s with
    | .error _ => .inr value
    | .ok v =>
      if isnan value then avg_loop relOf rest v cnt
      else if ¬ isnan v then avg_loop relOf rest (padd value v) (cnt + 1)
      else avg_loop relOf rest value cnt

/-- `FanController.get_avg_temp` (smfc.py lines 793-816): after the loop,
`value = value / cnt` only when `cnt > 0`; `cnt` ends up one less than
the number of non-NaN readings. -/
def get_avg_temp (relOf : Sensor → Except PyErr PFloat) (sensors : List Sensor) : PFloat :=
  if sensors.length > 0 then
    match avg_loop relOf sensors .nan 0 with
    | .inr value => value
    | .inl (value, cnt) =>
      if cnt > 0 then
        match pdiv value (.val (cnt : ℚ)) with
        | .ok v => v
        | .error _ => value
      else value
  else .nan

/-- The attribute lookup `sensor.value` in the debug loop of
`FanController.get_max_temp` (smfc.py line 828): the `Sensor`
constructor never sets an attribute named `value`, so the lookup raises
AttributeError. -/
def sensorValueAttr (_ : Sensor) : Except PyErr PFloat := .error .attributeError

/-- Aggregation loop of `FanController.get_max_temp` (smfc.py lines
829-848): as in `min_loop`, `value = v` is reassigned unconditionally
after the `v > value` comparison, which only selects the sensor whose
name is logged. -/
def max_loop (relOf : Sensor → Except PyErr PFloat) : List Sensor → PFloat → PFloat
  | [], value => value
  | s :: rest, value =>
    if isnan value then
      match relOf s with
      | .error _ => value
      | .ok v => max_loop relOf rest v
    else
      match relOf s with
      | .error _ => value
      | .ok v => max_loop relOf rest v

/-- `FanController.get_max_temp` (smfc.py lines 818-853): ahead of the
aggregation loop the source iterates
`for sensor in self.sensors: print(sensor.name, sensor.value)`;
for a non-empty sensor list the first `sensor.value` lookup raises
AttributeError, the enclosing handler catches it, and the initial NaN is
returned, so the aggregation loop after it is dead code. -/
def get_max_temp (relOf : Sensor → Except PyErr PFloat) (sensors : List Sensor) : PFloat :=
  match sensors with
  | [] => .nan
  | s :: _ =>
    match sensorValueAttr s with
    | .error _ => .nan
    | .ok _ => max_loop relOf sensors .nan

/-- The threshold-override step of `Sensor.getIpmiTemps` (smfc.py lines
426-434): when the supplied limit list is truthy, has two entries and the
lower is below the upper, a truthy lower entry replaces `lnc` and drags
`lcr` and `lnr` down to it, and a truthy upper entry likewise replaces
`unc`, `ucr`, `unr`.  The result tuple is ordered
(lnr, lcr, lnc, unc, ucr, unr). -/
def applySensorLimits (sensor_limits : List PFloat)
    (lnr lcr lnc unc ucr unr : PFloat) :
    PFloat × PFloat × PFloat × PFloat × PFloat × PFloat :=
  match sensor_limits with
  | [lo, hi] =>
    if pyLt lo hi then
      let lnc2 := if truthy lo then lo else lnc
      let lcr2 := if truthy lo then (if pyLt lnc2 lcr then lnc2 else lcr) else lcr
      let lnr2 := if truthy lo then (if pyLt lnc2 lnr then lnc2 else lnr) else lnr
      let unc2 := if truthy hi then hi else unc
      let ucr2 := if truthy hi then (if pyLt unc2 ucr then unc2 else ucr) else ucr
      let unr2 := if truthy hi then (if pyLt unc2 unr then unc2 else unr) else unr
      (lnr2, lcr2, lnc2, unc2, ucr2, unr2)
    else (lnr, lcr, lnc, unc, ucr, unr)
  | _ => (lnr, lcr, lnc, unc, ucr, unr)

/-- Per-line reading construction of `Sensor.getIpmiTemps` (smfc.py lines
414-449), given the ten captured groups of the sensor-row pattern (the
pattern itself is not modelled; a matched line hands its groups here).
Every field is stripped, numeric fields run through `str2float`, and the
status field is stored verbatim — nothing forces it to FAIL when the
value fails to convert. -/
def mkIpmiSensor (g1 g2 g3 g4 g5 g6 g7 g8 g9 g10 : String)
    (sensor_limits : List PFloat) : Sensor :=
  let name := pyStrip g1
  let value := str2float (pyStrip g2)
  let unit := pyStrip g3
  let status := pyStrip g4
  let lnr := str2float (pyStrip g5)
  let lcr := str2float (pyStrip g6)
  let lnc := str2float (pyStrip g7)
  let unc := str2float (pyStrip g8)
  let ucr := str2float (pyStrip g9)
  let unr := str2float (pyStrip g10)
  let t := applySensorLimits sensor_limits lnr lcr lnc unc ucr unr
  { name := name, temperature := value, unit := unit, status := status,
    lnr := t.1, lcr := t.2.1, lnc := t.2.2.1, unc := t.2.2.2.1,
    ucr := t.2.2.2.2.1, unr := t.2.2.2.2.2, type := none }

/-- Per-disk reading construction of `Sensor.getDiskTemps` (smfc.py lines
607-621): the status is FAIL exactly when the extracted temperature is
NaN, OK otherwise. -/
def mkDiskSensor (name : String) (temp : PFloat) (unit : String)
    (lnr lcr lnc unc ucr unr : PFloat) (dtype : String) : Sensor :=
  { name := name, temperature := temp, unit := unit,
    status := if isnan temp then "FAIL" else "OK",
    lnr := lnr, lcr := lcr, lnc := lnc, unc := unc, ucr := ucr, unr := unr,
    type := some dtype }

/-- Disk status assignment of `getDisks` in sensor.py (line 218):
OK when the temperature is not NaN, FAIL otherwise. -/
def sensorPyDiskStatus (temp : PFloat) : String :=
  if ¬ isnan temp then "OK" else "FAIL"

/-- Default threshold selection of `Sensor.getDiskTemps` (smfc.py lines
549-562): an SSD takes the three lower thresholds from `limits_ssd[0]`
and the three upper from `limits_ssd[1]`; every other kind — HDD and the
BSD fallback kind Unknown alike — takes them from `limits_hdd`.  The
result tuple is ordered (lnr, lcr, lnc, unc, ucr, unr). -/
def diskDefaultLimits (dtype : String) (limits_hdd limits_ssd : PFloat × PFloat) :
    PFloat × PFloat × PFloat × PFloat × PFloat × PFloat :=
  if dtype = "SSD" then
    (limits_ssd.1, limits_ssd.1, limits_ssd.1, limits_ssd.2, limits_ssd.2, limits_ssd.2)
  else
    (limits_hdd.1, limits_hdd.1, limits_hdd.1, limits_hdd.2, limits_hdd.2, limits_hdd.2)

/-- Default threshold assignment of `getDisks` in sensor.py (lines
166-171): one `defaultLimits` pair for every disk, regardless of kind. -/
def sensorPyDiskLimits (defaultLimits : PFloat × PFloat) :
    PFloat × PFloat × PFloat × PFloat × PFloat × PFloat :=
  (defaultLimits.1, defaultLimits.1, defaultLimits.1,
   defaultLimits.2, defaultLimits.2, defaultLimits.2)

/-- The configuration of the `Ipmi` class relevant to `set_fan_level`. -/
structure IpmiConfig where
  swapped_zones : Bool
  impi_alternate_mode : Bool
deriving DecidableEq, Repr

/-- `Ipmi.set_fan_level` (smfc.py lines 297-337): validate the zone, swap
zones if configured, validate the level, then build the ipmitool raw
command; the returned list is the argument vector after the command
path.  In alternate mode the data byte is `str(hex((255 * level) /
100.0))`: true division yields a float, and `hex` of a float raises
TypeError before any command is issued. -/
def set_fan_level (cfg : IpmiConfig) (zone level : ℤ) : Except PyErr (List String) :=
  if ¬ (zone = 0 ∨ zone = 1) then .error .valueError
  else
    let zone2 := if cfg.swapped_zones then 1 - zone else zone
    if ¬ (0 ≤ level ∧ level ≤ 100) then .error .valueError
    else if cfg.impi_alternate_mode then
      match pyHex (.pint (16 + zone2)) with
      | .error e => .error e
      | .ok a5 =>
        match pyHex (.pfloat (((255 * level : ℤ) : ℚ) / 100)) with
        | .error e => .error e
        | .ok a6 => .ok ["raw", "0x30", "0x91", "0x5A", "0x03", a5, a6]
    else
      match pyHex (.pint zone2) with
      | .error e => .error e
      | .ok a5 =>
        match pyHex (.pint level) with
        | .error e => .error e
        | .ok a6 => .ok ["raw", "0x30", "0x70", "0x66", "0x01", a5, a6]

/-- The per-zone state of `FanController` (smfc.py lines 640-658):
configuration fields together with the measured and derived attributes
held on the controller object. -/
structure FanCtrl where
  steps : ℤ
  sensitivity : PFloat
  polling : ℚ
  min_level : ℤ
  max_level : ℤ
  temp_step : ℚ
  level_step : ℚ
  last_time : ℚ
  last_temp : PFloat
  last_level : ℤ
deriving DecidableEq, Repr

/-- The derived state `FanController.__init__` computes (smfc.py lines
720-725): `temp_step = 1.0 / steps`,
`level_step = (max_level - min_level) / steps`, `last_temp = 0`,
`last_level = 0`, `last_time = time.monotonic() - (polling + 1)`. -/
def initFanController (steps : ℤ) (sensitivity : PFloat) (polling : ℚ)
    (min_level max_level : ℤ) (start_time : ℚ) : FanCtrl :=
  { steps := steps
    sensitivity := sensitivity
    polling := polling
    min_level := min_level
    max_level := max_level
    temp_step := 1 / (steps : ℚ)
    level_step := ((max_level - min_level : ℤ) : ℚ) / (steps : ℚ)
    last_time := start_time - (polling + 1)
    last_temp := .val 0
    last_level := 0 }

/-- Step 3 of `FanController.run` (smfc.py lines 896-898):
`current_gain = int(round(current_temp / temp_step))`,
`current_level = int(round(float(current_gain) * level_step)) +
min_level`.  No clamping of the gain or of the level takes place. -/
def computeLevel (c : FanCtrl) (temp : PFloat) : Except PyErr ℤ :=
  match pdiv temp (.val c.temp_step) with
  | .error e => .error e
  | .ok q =>
    match roundE q with
    | .error e => .error e
    | .ok gain =>
      match roundE (pmul (.val (gain : ℚ)) (.val c.level_step)) with
      | .error e => .error e
      | .ok lv => .ok (lv + c.min_level)

/-- `FanController.run` (smfc.py lines 866-904) for one tick.
`current_temp` is the value `self.get_temp_func()` returned (one of the
aggregators above applied to the refreshed sensor list); `wf level` is
the outcome of `Ipmi.set_fan_level` at the level about to be written
(`none` means it returns normally).  The result is the mutated controller
state, the list of levels actually handed to the BMC, and the exception
escaping the tick, if any.  Note the order in step 4 of the source:
`self.last_level = current_level` executes before
`self.set_fan_level(current_level)`. -/
def run (c : FanCtrl) (now : ℚ) (current_temp : PFloat)
    (wf : ℤ → Option PyErr) : FanCtrl × List ℤ × Option PyErr :=
  if now - c.last_time < c.polling then (c, [], none)
  else
    let c1 := { c with last_time := now }
    if pyLt (pabs (psub current_temp c1.last_temp)) c1.sensitivity then (c1, [], none)
    else
      let c2 := { c1 with last_temp := current_temp }
      match computeLevel c2 current_temp with
      | .error e => (c2, [], some e)
      | .ok lv =>
        if lv ≠ c2.last_level then
          let c3 := { c2 with last_level := lv }
          match wf lv with
          | some e => (c3, [], some e)
          | none => (c3, [lv], none)
        else (c2, [], none)

/-- A BMC write that always returns normally. -/
def wfOk : ℤ → Option PyErr := fun _ => none

/-- A BMC write that always raises, as when the ipmitool binary is
missing or a parameter is rejected. -/
def wfRaise : ℤ → Option PyErr := fun _ => some .valueError

/-- A normal IPMI-style reading: 50 degrees against lnc = 30, unc = 70. -/
def sNormal : Sensor :=
  { name := "CPU Temp", temperature := .val 50, unit := "degrees C", status := "ok",
    lnr := .val 20, lcr := .val 25, lnc := .val 30, unc := .val 70,
    ucr := .val 75, unr := .val 80 }

/-- A reading whose lower and upper non-critical thresholds coincide. -/
def sDegenerate : Sensor :=
  { sNormal with temperature := .val 40, lnc := .val 50, unc := .val 50 }

/-- A reading sitting exactly at its lower non-critical threshold. -/
def sAtLnc : Sensor := { sNormal with temperature := .val 30 }

/-- A reading with inverted thresholds (lnc = 100 above unc = 0); fed
through `getRelTempBody` it realizes the fractional rel value
`(lnc - t) / (lnc - unc) = (100 - t) / 100`, the only way the source
body produces a value strictly between 0 and 1. -/
def sInv (t : ℚ) : Sensor :=
  { sNormal with temperature := .val t, lnc := .val 100, unc := .val 0 }

/-- A reading whose temperature is NaN (its rel is NaN as well). -/
def sNan : Sensor :=
  { sNormal with temperature := .nan, lnc := .val 100, unc := .val 0 }

/-- C1: the relative temperature of `Sensor.getRelTemp` does NOT equal
`clamp((temperature - lnc) / (unc - lnc), 0, 1)`.  At (t, lnc, unc) =
(50, 30, 70) the spec formula gives 1/2 but the source body returns 1.0:
its clamp bounds are swapped (`min(max(t, unc), lnc)` forces `l = 0`) and
the truthiness guard routes `r = 0.0` into the `1.0` branch.  With
`unc == lnc` the body raises ZeroDivisionError where the claim says 1.0.
On top of that, the method is a classmethod over unset class attributes,
so the real call raises AttributeError. -/
theorem C1_relTemp_diverges :
    getRelTempBody sNormal = .ok (.val 1) ∧
    spec_relTemp sNormal = .val (1/2) ∧
    (PFloat.val (1/2) : PFloat) ≠ .val 1 ∧
    getRelTempBody sDegenerate = .error .zeroDivisionError ∧
    spec_relTemp sDegenerate = .val 1 ∧
    getRelTemp sNormal = .error .attributeError := by
  refine ⟨?_, ?_, ?_, ?_, ?_, rfl⟩
  · norm_num [getRelTempBody, sNormal, psub, pmin, pmax, pdiv, truthy, pyLt]
  · norm_num [spec_relTemp, sNormal]
  · norm_num
  · norm_num [getRelTempBody, sDegenerate, sNormal, psub, pmin, pmax, pdiv, pyLt]
  · norm_num [spec_relTemp, sDegenerate, sNormal]

/-- C2: on an empty sensor list every aggregation mode yields NaN, but
the tick does not quit early: NaN fails the sensitivity comparison
(`abs(NaN - last_temp) < sensitivity` is false), `last_temp` becomes NaN,
and `int(round(NaN / temp_step))` raises ValueError.  The claim's other
parts do hold: `last_level` is unchanged and no BMC write is issued. -/
theorem C2_empty_tick_raises (c : FanCtrl) (now : ℚ) (wf : ℤ → Option PyErr)
    (hgate : ¬ now - c.last_time < c.polling) (hts : c.temp_step ≠ 0) :
    get_1_temp getRelTemp [] = .nan ∧
    get_min_temp getRelTemp [] = .nan ∧
    get_avg_temp getRelTemp [] = .nan ∧
    get_max_temp getRelTemp [] = .nan ∧
    run c now .nan wf =
      ({ c with last_time := now, last_temp := .nan }, [], some .valueError) := by
  refine ⟨rfl, rfl, rfl, rfl, ?_⟩
  have h1 : pyLt (pabs (psub PFloat.nan c.last_temp)) c.sensitivity = false := by
    cases c.last_temp <;> rfl
  have h2 : computeLevel { c with last_time := now, last_temp := PFloat.nan }
      PFloat.nan = .error .valueError := by
    simp [computeLevel, pdiv, roundE, hts]
  simp [run, hgate, h1, h2]

/-- Closed instance of `C2_empty_tick_raises` at a concrete controller. -/
theorem C2_empty_tick_raises_witness :
    get_1_temp getRelTemp [] = .nan ∧
    get_min_temp getRelTemp [] = .nan ∧
    get_avg_temp getRelTemp [] = .nan ∧
    get_max_temp getRelTemp [] = .nan ∧
    run (initFanController 4 (.val (1/10)) 0 20 60 0) 0 .nan wfOk =
      ({ initFanController 4 (.val (1/10)) 0 20 60 0 with
          last_time := 0, last_temp := .nan }, [], some .valueError) :=
  C2_empty_tick_raises (initFanController 4 (.val (1/10)) 0 20 60 0) 0 wfOk
    (by norm_num [initFanController]) (by norm_num [initFanController])

/-- C3: `run` clamps neither the gain nor the level.  Three readings
whose body rel is 1.0 each (the constant of C1) aggregate under AVG to
3/2 (the off-by-one of C4), so with steps = 4, min_level = 20,
max_level = 60 the gain is 6, outside [0, 4], and the tick issues a BMC
write of level 80, outside [20, 60]. -/
theorem C3_no_clamping :
    get_avg_temp getRelTempBody [sNormal, sNormal, sNormal] = .val (3/2) ∧
    pdiv (.val (3/2)) (.val (1/4)) = .ok (.val 6) ∧
    roundE (.val 6) = .ok 6 ∧ ¬ ((6 : ℤ) ≤ 4) ∧
    (run (initFanController 4 (.val (1/10)) 0 20 60 0) 0
        (get_avg_temp getRelTempBody [sNormal, sNormal, sNormal]) wfOk).2.1 = [80] ∧
    ¬ ((80 : ℤ) ≤ 60) := by
  have habs : |(3/2 : ℚ)| = 3/2 := abs_of_pos (by norm_num)
  refine ⟨?_, ?_, ?_, by decide, ?_, by decide⟩
  · norm_num [get_avg_temp, avg_loop, getRelTempBody, sNormal, psub, pmin, pmax, pdiv,
      truthy, pyLt, isnan, padd]
  · norm_num [pdiv]
  · norm_num [roundE, roundHalfEven]
  · norm_num [run, computeLevel, initFanController, get_avg_temp, avg_loop, getRelTempBody,
      sNormal, psub, pmin, pmax, pdiv, pmul, pabs, truthy, pyLt, isnan, padd, roundE,
      roundHalfEven, wfOk, habs]

/-- C4: the AVG aggregate is not the arithmetic mean of the non-NaN rels:
the first non-NaN value does not increment `cnt`, so the sum is divided
by one less than the count.  Two readings with rels 1/2 and 1/4
aggregate to 3/4 instead of the mean 3/8.  The NaN-skipping scenario S5
itself holds (NaN then rel 2/5 aggregates to 2/5).  Under the real
classmethod `getRelTemp` the aggregate is NaN for every list. -/
theorem C4_avg_off_by_one :
    getRelTempBody (sInv 50) = .ok (.val (1/2)) ∧
    getRelTempBody (sInv 75) = .ok (.val (1/4)) ∧
    get_avg_temp getRelTempBody [sInv 50, sInv 75] = .val (3/4) ∧
    ((1/2 : ℚ) + 1/4) / 2 = 3/8 ∧
    (PFloat.val (3/4) : PFloat) ≠ .val (3/8) ∧
    get_avg_temp getRelTempBody [sNan, sInv 60] = .val (2/5) ∧
    get_avg_temp getRelTemp [sInv 50, sInv 75] = .nan := by
  refine ⟨?_, ?_, ?_, by norm_num, by norm_num, ?_, ?_⟩
  · norm_num [getRelTempBody, sInv, sNormal, psub, pmin, pmax, pdiv, truthy, pyLt]
  · norm_num [getRelTempBody, sInv, sNormal, psub, pmin, pmax, pdiv, truthy, pyLt]
  · norm_num [get_avg_temp, avg_loop, getRelTempBody, sInv, sNormal, psub, pmin, pmax,
      pdiv, truthy, pyLt, isnan, padd]
  · norm_num [get_avg_temp, avg_loop, getRelTempBody, sInv, sNan, sNormal, psub, pmin,
      pmax, pdiv, truthy, pyLt, isnan, padd]
  · norm_num [get_avg_temp, avg_loop, getRelTemp]

/-- C5: the MAX aggregate is not the largest rel.  For every non-empty
sensor list `get_max_temp` returns NaN, because its debug loop reads the
nonexistent attribute `sensor.value` and the handler returns the initial
NaN.  Even the aggregation loop on its own keeps the LAST rel (the
comparison only selects the logged name): rels 9/10 then 1/5 end at 1/5,
and a trailing NaN rel overwrites a real maximum. -/
theorem C5_max_not_max :
    getRelTempBody (sInv 10) = .ok (.val (9/10)) ∧
    getRelTempBody (sInv 80) = .ok (.val (1/5)) ∧
    get_max_temp getRelTempBody [sInv 10, sInv 80] = .nan ∧
    max_loop getRelTempBody [sInv 10, sInv 80] .nan = .val (1/5) ∧
    (PFloat.val (1/5) : PFloat) ≠ .val (9/10) ∧
    max_loop getRelTempBody [sInv 10, sNan] .nan = .nan := by
  refine ⟨?_, ?_, rfl, ?_, by norm_num, ?_⟩
  · norm_num [getRelTempBody, sInv, sNormal, psub, pmin, pmax, pdiv, truthy, pyLt]
  · norm_num [getRelTempBody, sInv, sNormal, psub, pmin, pmax, pdiv, truthy, pyLt]
  · norm_num [max_loop, getRelTempBody, sInv, sNormal, psub, pmin, pmax, pdiv, truthy,
      pyLt, isnan]
  · norm_num [max_loop, getRelTempBody, sInv, sNan, sNormal, psub, pmin, pmax, pdiv,
      truthy, pyLt, isnan]

/-- C6: a reading at `temperature == lnc` does not map to rel 0 and
level `min_level`: the body returns 1.0 there (`r = 0.0` is routed into
the truthiness fallback), so a single such reading drives the fan to
level 100 = max_level instead of min_level = 20. -/
theorem C6_at_lnc_goes_full :
    getRelTempBody sAtLnc = .ok (.val 1) ∧
    spec_relTemp sAtLnc = .val 0 ∧
    (run (initFanController 4 (.val (1/10)) 0 20 100 0) 0
        (get_avg_temp getRelTempBody [sAtLnc]) wfOk).2.1 = [100] ∧
    (100 : ℤ) ≠ 20 := by
  have habs : |(1 : ℚ)| = 1 := abs_of_pos (by norm_num)
  refine ⟨?_, ?_, ?_, by decide⟩
  · norm_num [getRelTempBody, sAtLnc, sNormal, psub, pmin, pmax, pdiv, truthy, pyLt]
  · norm_num [spec_relTemp, sAtLnc, sNormal]
  · norm_num [run, computeLevel, initFanController, get_avg_temp, avg_loop, getRelTempBody,
      sAtLnc, sNormal, psub, pmin, pmax, pdiv, pmul, pabs, truthy, pyLt, isnan, padd,
      roundE, roundHalfEven, wfOk, habs]

/-- C7 counterexample: an ipmitool sensor line whose value field does not
parse (field `na`) yields a reading with temperature NaN whose status is
the status field taken verbatim (`na` here), not FAIL. -/
theorem C7_counterexample :
    isnan (mkIpmiSensor "CPU " "na" "degrees C" "na" "0.000" "5.000" "10.000"
        "70.000" "75.000" "80.000" []).temperature = true ∧
    (mkIpmiSensor "CPU " "na" "degrees C" "na" "0.000" "5.000" "10.000"
        "70.000" "75.000" "80.000" []).status = "na" ∧
    ("na" : String) ≠ "FAIL" :=
  ⟨by decide, by decide, by decide⟩

/-- C7 amended: disk-sourced readings (`Sensor.getDiskTemps` in smfc.py
and `getDisks` in sensor.py) have status FAIL exactly when the
temperature is NaN; IPMI-sourced readings instead carry the parsed status
field verbatim, so a NaN temperature does not force FAIL there. -/
theorem C7_nan_status (name unit dtype : String) (temp l1 l2 l3 l4 l5 l6 : PFloat)
    (g1 g2 g3 g4 g5 g6 g7 g8 g9 g10 : String) (lims : List PFloat)
    (h : isnan temp = true) :
    (mkDiskSensor name temp unit l1 l2 l3 l4 l5 l6 dtype).status = "FAIL" ∧
    sensorPyDiskStatus temp = "FAIL" ∧
    (mkIpmiSensor g1 g2 g3 g4 g5 g6 g7 g8 g9 g10 lims).status = pyStrip g4 := by
  refine ⟨?_, ?_, rfl⟩
  · simp [mkDiskSensor, h]
  · simp [sensorPyDiskStatus, h]

/-- Closed instance of `C7_nan_status` at a NaN disk reading and a
concrete unparseable ipmitool line. -/
theorem C7_nan_status_witness :
    (mkDiskSensor "sda" .nan "N/A" (.val 10) (.val 10) (.val 10) (.val 50)
        (.val 50) (.val 50) "HDD").status = "FAIL" ∧
    sensorPyDiskStatus .nan = "FAIL" ∧
    (mkIpmiSensor "CPU " "na" "degrees C" "ok" "na" "na" "na" "na" "na" "na"
        []).status = pyStrip "ok" :=
  C7_nan_status "sda" "N/A" "HDD" .nan (.val 10) (.val 10) (.val 10) (.val 50)
    (.val 50) (.val 50) "CPU " "na" "degrees C" "ok" "na" "na" "na" "na" "na" "na"
    [] rfl

/-- C8: in alternate mode `set_fan_level` raises TypeError for every
valid zone and level instead of issuing the raw command: the data byte
expression `(255 * level) / 100.0` is a float (true division, never
rounded), and Python `hex` rejects floats, so no command is built and the
function does not return normally. -/
theorem C8_alternate_mode_raises (zone level : ℤ)
    (hz : zone = 0 ∨ zone = 1) (hl0 : 0 ≤ level) (hl1 : level ≤ 100) :
    set_fan_level ⟨false, true⟩ zone level = .error .typeError := by
  rcases hz with rfl | rfl <;> norm_num [set_fan_level, pyHex, hl0, hl1]

/-- Closed instance of `C8_alternate_mode_raises` at zone 0, level 50. -/
theorem C8_alternate_mode_raises_witness :
    set_fan_level ⟨false, true⟩ 0 50 = .error .typeError :=
  C8_alternate_mode_raises 0 50 (Or.inl rfl) (by decide) (by decide)

/-- C9 counterexample: a disk of unknown kind (`Unknown`, produced by the
BSD fallback enumeration) takes the HDD defaults in
`Sensor.getDiskTemps`, so its upper thresholds are 50, not 60. -/
theorem C9_counterexample :
    diskDefaultLimits "Unknown" (.val 10, .val 50) (.val 10, .val 70) =
      (.val 10, .val 10, .val 10, .val 50, .val 50, .val 50) ∧
    (PFloat.val 50 : PFloat) ≠ .val 60 :=
  ⟨by decide, by decide⟩

/-- C9 amended: in `Sensor.getDiskTemps` (smfc.py) an SSD defaults to
lower 10 and upper 70 and every other kind — HDD and unknown alike — to
lower 10 and upper 50; the standalone `getDisks` of sensor.py applies
the single default pair (10, 60) to every disk regardless of kind. -/
theorem C9_disk_default_limits (dtype : String) (h : dtype ≠ "SSD") :
    diskDefaultLimits dtype (.val 10, .val 50) (.val 10, .val 70) =
      (.val 10, .val 10, .val 10, .val 50, .val 50, .val 50) ∧
    diskDefaultLimits "SSD" (.val 10, .val 50) (.val 10, .val 70) =
      (.val 10, .val 10, .val 10, .val 70, .val 70, .val 70) ∧
    sensorPyDiskLimits (.val 10, .val 60) =
      (.val 10, .val 10, .val 10, .val 60, .val 60, .val 60) := by
  refine ⟨?_, by decide, rfl⟩
  simp [diskDefaultLimits, h]

/-- Closed instance of `C9_disk_default_limits` at the unknown kind. -/
theorem C9_disk_default_limits_witness :
    diskDefaultLimits "Unknown" (.val 10, .val 50) (.val 10, .val 70) =
      (.val 10, .val 10, .val 10, .val 50, .val 50, .val 50) ∧
    diskDefaultLimits "SSD" (.val 10, .val 50) (.val 10, .val 70) =
      (.val 10, .val 10, .val 10, .val 70, .val 70, .val 70) ∧
    sensorPyDiskLimits (.val 10, .val 60) =
      (.val 10, .val 10, .val 10, .val 60, .val 60, .val 60) :=
  C9_disk_default_limits "Unknown" (by decide)

/-- Helper for C10: a tick started in a state whose `last_temp` already
equals the measured temperature issues no write — either the polling gate
or the sensitivity gate returns early, or (for NaN) the quantization
raises before any write. -/
theorem run_same_temp_no_write (d : FanCtrl) (now2 : ℚ) (temp : PFloat)
    (wf2 : ℤ → Option PyErr) (hlast : d.last_temp = temp)
    (hpos : pyLt (.val 0) d.sensitivity = true) :
    (run d now2 temp wf2).2.1 = [] := by
  by_cases hg : now2 - d.last_time < d.polling
  · simp [run, hg]
  · cases temp with
    | nan =>
      by_cases hts : d.temp_step = 0 <;>
        simp [run, hg, hlast, computeLevel, pdiv, roundE, psub, pabs, pyLt, hts]
    | val q =>
      have hdiff : pyLt (pabs (psub (PFloat.val q) d.last_temp)) d.sensitivity = true := by
        rw [hlast]
        simpa [psub, pabs, sub_self, abs_zero] using hpos
      simp [run, hg, hdiff]

/-- C10: in step 4 of `FanController.run`, `self.last_level =
current_level` executes before `self.set_fan_level(current_level)`, so
when the BMC write raises, the escaping tick leaves a state that already
records the new level while no write was completed; and from that state a
later tick at the same temperature issues no write. -/
theorem C10_last_level_assigned_before_write (c : FanCtrl) (now : ℚ)
    (temp : PFloat) (wf : ℤ → Option PyErr) (L : ℤ) (e : PyErr)
    (hgate : ¬ now - c.last_time < c.polling)
    (hsens : pyLt (pabs (psub temp c.last_temp)) c.sensitivity = false)
    (hcomp : computeLevel { c with last_time := now, last_temp := temp } temp = .ok L)
    (hnew : L ≠ c.last_level)
    (hwf : wf L = some e)
    (hpos : pyLt (.val 0) c.sensitivity = true) :
    ((run c now temp wf).1.last_level = L ∧
     (run c now temp wf).2.1 = [] ∧
     (run c now temp wf).2.2 = some e) ∧
    ∀ now2 wf2, (run (run c now temp wf).1 now2 temp wf2).2.1 = [] := by
  have hrun : run c now temp wf =
      ({ c with last_time := now, last_temp := temp, last_level := L }, [], some e) := by
    simp only [run, if_neg hgate, hsens, Bool.false_eq_true, if_false, hcomp]
    rw [if_pos hnew, hwf]
  refine ⟨by rw [hrun]; exact ⟨rfl, rfl, rfl⟩, ?_⟩
  intro now2 wf2
  rw [hrun]
  exact run_same_temp_no_write _ now2 temp wf2 rfl hpos

/-- Closed instance of `C10_last_level_assigned_before_write`: the tick
records level 60 even though the write raises. -/
theorem C10_last_level_assigned_before_write_witness :
    (run (initFanController 4 (.val (1/10)) 0 20 100 0) 0 (.val (1/2))
        wfRaise).1.last_level = 60 ∧
    (run (initFanController 4 (.val (1/10)) 0 20 100 0) 0 (.val (1/2))
        wfRaise).2.1 = [] ∧
    (run (initFanController 4 (.val (1/10)) 0 20 100 0) 0 (.val (1/2))
        wfRaise).2.2 = some .valueError :=
  (C10_last_level_assigned_before_write (initFanController 4 (.val (1/10)) 0 20 100 0)
    0 (.val (1/2)) wfRaise 60 .valueError
    (by norm_num [initFanController])
    (by norm_num [initFanController, psub, pabs, pyLt, abs_of_pos])
    (by norm_num [computeLevel, initFanController, pdiv, pmul, roundE, roundHalfEven])
    (by decide) rfl
    (by norm_num [initFanController, pyLt])).1

end Smfc

